import Mathlib

/-!
Verification of the Hacker-Stories client state machine from `src/App.tsx`.

The reducer `storiesReducer`, the story record type and the sort-button
wiring are embedded as Lean definitions below; the theorems settle the
specification's claims about them.
-/

/-- Embedding of the TypeScript `Story` record: the article shape returned
by the search API. `num_comments` and `points` are JS numbers used as
integers by the program. -/
structure Story where
  objectID : String
  url : String
  title : String
  author : String
  num_comments : Int
  points : Int
deriving DecidableEq, Repr

/-- Embedding of the TypeScript `StoriesState` record. -/
structure StoriesState where
  data : List Story
  isLoading : Bool
  isError : Bool
  reverse : Bool
deriving DecidableEq, Repr

/-- Embedding of the `StoriesAction` union type: the five commands the
reducer accepts. -/
inductive StoriesAction where
  | fetchInit
  | fetchSuccess (payload : List Story)
  | fetchFailure
  | removeStory (payload : Story)
  | sortStories (payload : String)
deriving DecidableEq, Repr

/-- A sort key extracted from a story by field name: a string property,
a numeric property, or `undefined` when the story has no such property
(JavaScript property access yields `undefined`). -/
inductive FieldVal where
  | str (s : String)
  | num (n : Int)
  | undefined
deriving DecidableEq, Repr

/-- Property access `story[field]` for the fields of `Story`; any other
name yields `undefined`, as in JavaScript. -/
def fieldOf (s : Story) : String → FieldVal
  | "objectID" => .str s.objectID
  | "url" => .str s.url
  | "title" => .str s.title
  | "author" => .str s.author
  | "num_comments" => .num s.num_comments
  | "points" => .num s.points
  | _ => .undefined

/-- Lodash's ascending comparison on sort keys, as a "compares less than
or equal" test: numbers and strings by their order, `undefined` sorting
after every defined value, and equal (hence stable) on ties. Keys of
mixed kinds never arise for a single field name and are treated as ties. -/
def fvLe : FieldVal → FieldVal → Bool
  | .num a, .num b => decide (a ≤ b)
  | .str a, .str b => decide (a ≤ b)
  | .undefined, .undefined => true
  | .undefined, _ => false
  | _, .undefined => true
  | _, _ => true

/-- Stable insertion of a story into a list already sorted by `f`: the
story goes before the first element it compares less-or-equal to, so an
element earlier in the input stays before later elements with equal keys. -/
def fieldInsert (f : String) (a : Story) : List Story → List Story
  | [] => [a]
  | b :: l => if fvLe (fieldOf a f) (fieldOf b f) then a :: b :: l else b :: fieldInsert f a l

/-- Embedding of `_.sortBy(list, field)`: a stable ascending sort of the
list by the named field. -/
def sortBy : List Story → String → List Story
  | [], _ => []
  | a :: l, f => fieldInsert f a (sortBy l f)

/-- Embedding of `storiesReducer` from `src/App.tsx`: the pure transition
function of the result-set state machine. -/
def storiesReducer (state : StoriesState) (action : StoriesAction) : StoriesState :=
  match action with
  | .fetchInit =>
      { state with isLoading := true, isError := false }
  | .fetchSuccess payload =>
      { state with isLoading := false, isError := false, data := payload }
  | .fetchFailure =>
      { state with isLoading := false, isError := true }
  | .removeStory payload =>
      { state with data := state.data.filter (fun story => payload.objectID != story.objectID) }
  | .sortStories payload =>
      if state.reverse then
        { state with reverse := false, data := sortBy state.data payload }
      else
        { state with reverse := true, data := (sortBy state.data payload).reverse }

/-- The initial reducer state passed to `useReducer` in `App`. -/
def initialStoriesState : StoriesState :=
  { data := [], isLoading := false, isError := false, reverse := false }

/-- Running a sequence of dispatched actions through the reducer. -/
def runActions (st : StoriesState) : List StoriesAction → StoriesState
  | [] => st
  | a :: rest => runActions (storiesReducer st a) rest

/-- The three `CustomButton` sort headers rendered by `App`, as pairs of
the displayed `textField` and the dispatched `filterField`. -/
def sortButtons : List (String × String) :=
  [("author", "author"), ("topic", "topic"), ("comments", "num_comments")]

/-- Clicking a header runs `onClickFilter`, which calls `handleSortStories`
with the button's `filterField`, dispatching a `SORT_STORIES` action. -/
def clickSortHeader (st : StoriesState) (filterField : String) : StoriesState :=
  storiesReducer st (.sortStories filterField)

/-- `fieldInsert` produces a permutation of consing the element. -/
theorem fieldInsert_perm (f : String) (a : Story) (l : List Story) :
    (fieldInsert f a l).Perm (a :: l) := by
  induction l with
  | nil => simp [fieldInsert]
  | cons b l ih =>
      simp only [fieldInsert]
      by_cases h : fvLe (fieldOf a f) (fieldOf b f) = true
      · simp [h]
      · simp only [h, if_false]
        exact (List.Perm.cons b ih).trans (List.Perm.swap a b l)

/-- `sortBy` permutes its input. -/
theorem sortBy_perm (l : List Story) (f : String) : (sortBy l f).Perm l := by
  induction l with
  | nil => simp [sortBy]
  | cons a l ih =>
      exact (fieldInsert_perm f a (sortBy l f)).trans (List.Perm.cons a ih)

/-- Concrete stories used by witnesses and counterexamples. -/
def storyA : Story :=
  { objectID := "1", url := "u1", title := "A", author := "X", num_comments := 2, points := 5 }

/-- A second concrete story, with a larger `points` value than `storyA`. -/
def storyB : Story :=
  { objectID := "2", url := "u2", title := "B", author := "Y", num_comments := 1, points := 9 }

/-- A non-loading, non-error, non-reversed state holding `[storyA, storyB]`,
which is ascending by `points`. -/
def stateAB : StoriesState :=
  { data := [storyA, storyB], isLoading := false, isError := false, reverse := false }

/-- A non-loading, non-error, non-reversed state holding `[storyB, storyA]`,
which is descending by `points`. -/
def stateBA : StoriesState :=
  { data := [storyB, storyA], isLoading := false, isError := false, reverse := false }

/-- C1 (counterexample): with the toggle flag `reverse = false` and items
already in ascending `points` order, `SORT_STORIES "points"` does NOT
leave the items ascending by `points` as the claim states: the reducer
reverses the ascending order, yielding the descending order. -/
theorem sort_not_ascending_when_unreversed :
    (storiesReducer stateAB (.sortStories "points")).data
      ≠ sortBy stateAB.data "points" := by
  decide

/-- C1 (amended): the SORT command sorts ascending by the field and then
reverses (descending result) when the flag is `false`, flipping it to
`true`; when the flag is `true` it sorts ascending and flips the flag
back to `false` — the opposite pairing of directions to flag values from
the one claimed. -/
theorem sort_policy (st : StoriesState) (f : String) :
    storiesReducer st (.sortStories f) =
      if st.reverse then
        { st with data := sortBy st.data f, reverse := false }
      else
        { st with data := (sortBy st.data f).reverse, reverse := true } := by
  obtain ⟨data, isLoading, isError, reverse⟩ := st
  cases reverse <;> simp [storiesReducer]

/-- C2 (counterexample): applying `SORT_STORIES "points"` twice to a state
whose items are out of ascending order does not return the items to their
original order: `[storyB, storyA]` becomes `[storyA, storyB]`. -/
theorem sort_twice_not_roundtrip :
    (runActions stateBA [.sortStories "points", .sortStories "points"]).data
      ≠ stateBA.data := by
  decide

/-- C2 (amended): applying SORT twice consecutively restores the toggle
flag to its value before the pair and leaves the items a permutation of
the original items, but not in the original order in general. -/
theorem sort_twice_flag_and_perm (st : StoriesState) (f : String) :
    (runActions st [.sortStories f, .sortStories f]).reverse = st.reverse ∧
    (runActions st [.sortStories f, .sortStories f]).data.Perm st.data := by
  obtain ⟨data, isLoading, isError, reverse⟩ := st
  cases reverse
  · refine ⟨rfl, ?_⟩
    show (sortBy ((sortBy data f).reverse) f).Perm data
    exact (sortBy_perm _ f).trans ((List.reverse_perm _).trans (sortBy_perm data f))
  · refine ⟨rfl, ?_⟩
    show ((sortBy (sortBy data f) f).reverse).Perm data
    exact (List.reverse_perm _).trans ((sortBy_perm _ f).trans (sortBy_perm data f))

/-- Sorting by a name that is not a field of `Story` leaves the list
unchanged: every key is `undefined` and lodash's stable sort keeps the
original order on ties. -/
theorem sortBy_nonfield_eq_self (l : List Story) (f : String)
    (hf : ∀ s : Story, fieldOf s f = .undefined) : sortBy l f = l := by
  induction l with
  | nil => rfl
  | cons a l ih =>
      simp only [sortBy, ih]
      cases l with
      | nil => rfl
      | cons b l => simp [fieldInsert, hf, fvLe]

/-- C3: the "topic" header button dispatches the literal field name
`"topic"`, not `"title"`: `Story` has no `topic` property, so the sort it
triggers never orders the items by title — from any state, clicking
"topic" leaves the items unchanged (flag set) or merely reversed (flag
clear). The "comments" button does dispatch `"num_comments"` as claimed. -/
theorem topic_button_dispatches_topic_not_title :
    sortButtons.lookup "topic" = some "topic" ∧
    sortButtons.lookup "comments" = some "num_comments" ∧
    ∀ st : StoriesState, (clickSortHeader st "topic").data =
      if st.reverse then st.data else st.data.reverse := by
  refine ⟨rfl, rfl, fun st => ?_⟩
  obtain ⟨data, isLoading, isError, reverse⟩ := st
  have h : sortBy data "topic" = data :=
    sortBy_nonfield_eq_self data "topic" (fun s => rfl)
  cases reverse <;> simp [clickSortHeader, storiesReducer, h]

/-- C4: FETCH_INIT always yields `isLoading = true, isError = false`,
leaving items (and the toggle flag) unchanged from the prior state. -/
theorem fetchInit_loading (st : StoriesState) :
    storiesReducer st .fetchInit =
      { st with isLoading := true, isError := false } := by
  rfl

/-- C5: FETCH_FAILURE always yields `isLoading = false, isError = true`
with items and toggle flag unchanged; in particular the items equal their
pre-fetch value, since the preceding FETCH_INIT leaves items unchanged too. -/
theorem fetchFailure_error (st : StoriesState) :
    storiesReducer st .fetchFailure =
      { st with isLoading := false, isError := true } ∧
    (storiesReducer (storiesReducer st .fetchInit) .fetchFailure).data = st.data := by
  exact ⟨rfl, rfl⟩

/-- C6: FETCH_SUCCESS replaces the items wholesale by the payload (no
merge with the prior items) and yields `isLoading = false, isError = false`. -/
theorem fetchSuccess_replaces (st : StoriesState) (payload : List Story) :
    storiesReducer st (.fetchSuccess payload) =
      { st with isLoading := false, isError := false, data := payload } := by
  rfl

/-- C10: SORT_STORIES returns a state whose items are a permutation of
the prior items (nothing added, removed or modified), with `isLoading`
and `isError` unchanged. -/
theorem sort_perm_flags (st : StoriesState) (f : String) :
    (storiesReducer st (.sortStories f)).data.Perm st.data ∧
    (storiesReducer st (.sortStories f)).isLoading = st.isLoading ∧
    (storiesReducer st (.sortStories f)).isError = st.isError := by
  obtain ⟨data, isLoading, isError, reverse⟩ := st
  cases reverse
  · exact ⟨(List.reverse_perm _).trans (sortBy_perm data f), rfl, rfl⟩
  · exact ⟨sortBy_perm data f, rfl, rfl⟩

/-- C7: when a story with `a`'s identifier occurs exactly once in the
items, REMOVE_STORY shrinks the items by exactly one, no story with that
identifier remains, and the loading, error and toggle flags are unchanged. -/
theorem remove_present_once (st : StoriesState) (a : Story)
    (h : st.data.countP (fun s => a.objectID == s.objectID) = 1) :
    (storiesReducer st (.removeStory a)).data.length + 1 = st.data.length ∧
    (storiesReducer st (.removeStory a)).data.countP
      (fun s => a.objectID == s.objectID) = 0 ∧
    (storiesReducer st (.removeStory a)).isLoading = st.isLoading ∧
    (storiesReducer st (.removeStory a)).isError = st.isError ∧
    (storiesReducer st (.removeStory a)).reverse = st.reverse := by
  obtain ⟨data, isLoading, isError, reverse⟩ := st
  simp only [storiesReducer] at *
  refine ⟨?_, ?_, trivial, trivial, trivial⟩
  · rw [← List.countP_eq_length_filter,
      List.length_eq_countP_add_countP (p := fun s => a.objectID == s.objectID) data, h]
    have : (data.countP fun s => a.objectID != s.objectID)
        = data.countP fun s => ¬(a.objectID == s.objectID) = true := by
      apply List.countP_congr
      intro s _
      simp [bne]
    omega
  · rw [List.countP_filter]
    simp

/-- C8: when no story with `a`'s identifier is present in the items,
REMOVE_STORY is a no-op: the resulting state equals the prior state. -/
theorem remove_absent_noop (st : StoriesState) (a : Story)
    (h : st.data.countP (fun s => a.objectID == s.objectID) = 0) :
    storiesReducer st (.removeStory a) = st := by
  obtain ⟨data, isLoading, isError, reverse⟩ := st
  simp only [storiesReducer, StoriesState.mk.injEq, and_true]
  rw [List.filter_eq_self]
  intro s hs
  simp only [List.countP_eq_zero] at h
  simpa [bne] using h s hs

/-- A story whose identifier is absent from `stateAB`. -/
def storyC : Story :=
  { objectID := "3", url := "u3", title := "C", author := "Z", num_comments := 0, points := 1 }

/-- Witness for C7: removing `storyA`, present exactly once in `stateAB`. -/
theorem remove_present_once_witness :
    stateAB.data.countP (fun s => storyA.objectID == s.objectID) = 1 ∧
    ((storiesReducer stateAB (.removeStory storyA)).data.length + 1 = stateAB.data.length ∧
     (storiesReducer stateAB (.removeStory storyA)).data.countP
       (fun s => storyA.objectID == s.objectID) = 0 ∧
     (storiesReducer stateAB (.removeStory storyA)).isLoading = stateAB.isLoading ∧
     (storiesReducer stateAB (.removeStory storyA)).isError = stateAB.isError ∧
     (storiesReducer stateAB (.removeStory storyA)).reverse = stateAB.reverse) :=
  ⟨by decide, remove_present_once stateAB storyA (by decide)⟩

/-- Witness for C8: removing `storyC`, whose identifier is absent from
`stateAB`, changes nothing. -/
theorem remove_absent_noop_witness :
    stateAB.data.countP (fun s => storyC.objectID == s.objectID) = 0 ∧
    storiesReducer stateAB (.removeStory storyC) = stateAB :=
  ⟨by decide, remove_absent_noop stateAB storyC (by decide)⟩

/-- Whether an action's story payload is free of duplicate identifiers;
FETCH_SUCCESS is the only action that injects new stories. -/
def actionPayloadOk : StoriesAction → Bool
  | .fetchSuccess p => decide (p.map Story.objectID).Nodup
  | _ => true

/-- C9 (counterexample): a FETCH_SUCCESS whose payload repeats a story
reaches a state holding two articles with the same identifier, so the
at-most-one-per-identifier invariant does not hold over all action
sequences. -/
theorem duplicate_payload_breaks_invariant :
    ¬ ((runActions initialStoriesState [.fetchSuccess [storyA, storyA]]).data.map
        Story.objectID).Nodup := by
  decide

/-- One reducer step preserves distinctness of identifiers, provided a
FETCH_SUCCESS payload has distinct identifiers. -/
theorem nodup_ids_step (st : StoriesState) (a : StoriesAction)
    (hst : (st.data.map Story.objectID).Nodup) (ha : actionPayloadOk a = true) :
    ((storiesReducer st a).data.map Story.objectID).Nodup := by
  cases a with
  | fetchInit => exact hst
  | fetchFailure => exact hst
  | fetchSuccess p => simpa [actionPayloadOk] using ha
  | removeStory s =>
      exact List.Nodup.sublist (List.Sublist.map _ (List.filter_sublist st.data)) hst
  | sortStories f =>
      obtain ⟨data, isLoading, isError, reverse⟩ := st
      cases reverse
      · exact (List.Perm.map Story.objectID
          ((List.reverse_perm _).trans (sortBy_perm data f))).nodup_iff.mpr hst
      · exact (List.Perm.map Story.objectID (sortBy_perm data f)).nodup_iff.mpr hst

/-- Any run of duplicate-free actions from a duplicate-free state keeps
the identifiers distinct. -/
theorem nodup_ids_runActions (acts : List StoriesAction) (st : StoriesState)
    (hst : (st.data.map Story.objectID).Nodup) (h : acts.all actionPayloadOk = true) :
    ((runActions st acts).data.map Story.objectID).Nodup := by
  induction acts generalizing st with
  | nil => exact hst
  | cons a rest ih =>
      simp only [List.all_cons, Bool.and_eq_true] at h
      exact ih (storiesReducer st a) (nodup_ids_step st a hst h.1) h.2

/-- C9 (amended): in every state reachable from the initial state by
actions whose FETCH_SUCCESS payloads carry no duplicate identifiers, the
items contain at most one article per identifier. -/
theorem nodup_ids_invariant (acts : List StoriesAction)
    (h : acts.all actionPayloadOk = true) :
    ((runActions initialStoriesState acts).data.map Story.objectID).Nodup :=
  nodup_ids_runActions acts initialStoriesState (by simp [initialStoriesState]) h

/-- Witness for the amended C9 on a concrete action sequence exercising
every command. -/
theorem nodup_ids_invariant_witness :
    ([StoriesAction.fetchInit, .fetchSuccess [storyA, storyB], .removeStory storyA,
        .sortStories "points"].all actionPayloadOk = true) ∧
    ((runActions initialStoriesState [.fetchInit, .fetchSuccess [storyA, storyB],
        .removeStory storyA, .sortStories "points"]).data.map Story.objectID).Nodup :=
  ⟨by decide, nodup_ids_invariant [.fetchInit, .fetchSuccess [storyA, storyB],
    .removeStory storyA, .sortStories "points"] (by decide)⟩
